import Mathlib

/-!
# Verification of the RealtySass affordability engine

Shallow embedding of the deterministic affordability/mortgage-estimation core of
`netlify/functions/elena-agent.js` (v2.2.0), together with the same functions from
the older handler version (v2.0.0).

Modelling conventions:
* A JavaScript number slot that the pipeline fills with `num(v)` (a finite number
  or `null`) is modelled as `Option ℚ`; `none` stands for `null` (and for the
  non-finite values that `num` filters out).  All arithmetic is exact rational
  arithmetic; the claims under study are about the algebraic/rounding structure
  of the formulas, none of them hinges on binary floating-point error.
* `Number(v)` applied to such a slot yields `0` for `null` (JS `Number(null) = 0`)
  and the number itself otherwise: `jsNumber`.
* JS truthiness of a numeric slot (`!inc`, `creditScoreRaw ? _ : _`) is false
  exactly for `null` and `0`.
* `Math.round x = ⌊x + 1/2⌋` is Mathlib's `round` on `ℚ` (both round half up).
-/

namespace ElenaAgent

/-- JS `Number(v)` on a `num`-sanitised slot: `null ↦ 0`, finite number ↦ itself. -/
def jsNumber (v : Option ℚ) : ℚ := v.getD 0

/-- JS truthiness of a numeric slot: `null` and `0` are falsy. -/
def jsTruthyNum : Option ℚ → Bool
  | none => false
  | some x => if x = 0 then false else true

/-- `clamp(n, lo, hi) = Math.max(lo, Math.min(hi, n))` (from elena-agent.js). -/
def clamp (n lo hi : ℚ) : ℚ := max lo (min hi n)

/-- `roundTo(n, step) = Math.round(n / step) * step` (from elena-agent.js). -/
def roundTo (n step : ℚ) : ℚ := ((round (n / step) : ℤ) : ℚ) * step

/-- `pickFirst(...vals)`: first value that is not `undefined/null/""/non-finite`.
On `num`-sanitised numeric slots this is the first non-`null` entry. -/
def pickFirst : List (Option ℚ) → Option ℚ
  | [] => none
  | some v :: _ => some v
  | none :: rest => pickFirst rest

/-- `aprTierFromScore(score)`: credit-score → APR tier table.
`const s = Number.isFinite(score) ? score : null; if (!s) return 0.070; ...` -/
def aprTierFromScore (score : Option ℚ) : ℚ :=
  match score with
  | none => 0.070
  | some s =>
    if s = 0 then 0.070
    else if 780 ≤ s then 0.0625
    else if 740 ≤ s then 0.0675
    else if 700 ≤ s then 0.0725
    else if 660 ≤ s then 0.0800
    else 0.0900

/-- `pmtMonthlyPI(principal, apr, termYears)`: fixed-rate amortization payment.
Returns `null` for non-positive/missing principal or non-positive term. -/
def pmtMonthlyPI (principal apr termYears : Option ℚ) : Option ℚ :=
  match principal with
  | none => none
  | some p =>
    if p ≤ 0 then none
    else
      let y := termYears.getD 30
      let n : ℤ := round (y * 12)
      let r := (apr.getD 0.07) / 12
      if n ≤ 0 then none
      else if r ≤ 0 then some (p / (n : ℚ))
      else
        let pw := (1 + r) ^ n.toNat
        some (p * (r * pw) / (pw - 1))

/-- `principalFromPmt(targetPI, apr, termYears)`: inverts the amortization formula. -/
def principalFromPmt (targetPI apr termYears : Option ℚ) : Option ℚ :=
  match targetPI with
  | none => none
  | some t =>
    if t ≤ 0 then none
    else
      let y := termYears.getD 30
      let n : ℤ := round (y * 12)
      let r := (apr.getD 0.07) / 12
      if n ≤ 0 then none
      else if r ≤ 0 then some (t * (n : ℚ))
      else
        let pw := (1 + r) ^ n.toNat
        some (t * (pw - 1) / (r * pw))

/-- The `breakdown` object of a successful mortgage estimate (whole-dollar rounded). -/
structure Breakdown where
  principal_interest : ℤ
  taxes : ℤ
  insurance : ℤ
  hoa : ℤ
deriving DecidableEq

/-- The `assumptions_used` object of a successful mortgage estimate. -/
structure AssumptionsUsed where
  taxRate : ℚ
  insuranceAnnual : ℚ
  hoaMonthly : ℚ
deriving DecidableEq

/-- A successful mortgage estimate payload. -/
structure MortgageOk where
  apr_assumed : ℚ
  loan_amount : ℤ
  term_years : ℚ
  breakdown : Breakdown
  all_in_monthly : ℤ
  assumptions_used : AssumptionsUsed
deriving DecidableEq

/-- Result of `estimateAllInHousing`: `{ok:true, ...}` or `{ok:false, reason}`. -/
inductive MortgageResult where
  | ok (m : MortgageOk)
  | err (reason : String)
deriving DecidableEq

/-- `true` iff the result is `{ok:true}`. -/
def MortgageResult.isOk : MortgageResult → Bool
  | .ok _ => true
  | .err _ => false

/-- The reported `all_in_monthly` of an ok result. -/
def MortgageResult.allInMonthly : MortgageResult → Option ℤ
  | .ok m => some m.all_in_monthly
  | .err _ => none

/-- The sum of the four rounded breakdown components of an ok result. -/
def MortgageResult.breakdownSum : MortgageResult → Option ℤ
  | .ok m => some (m.breakdown.principal_interest + m.breakdown.taxes +
      m.breakdown.insurance + m.breakdown.hoa)
  | .err _ => none

/-- `estimateAllInHousing({price, downpayment, creditScore, termYears, taxRate,
insuranceAnnual, hoaMonthly})` from elena-agent.js v2.2.0 (lines 361-411). -/
def estimateAllInHousing (price downpayment creditScore termYears
    taxRate insuranceAnnual hoaMonthly : Option ℚ) : MortgageResult :=
  let P := jsNumber price
  let D := jsNumber downpayment
  let s := jsNumber creditScore
  let y := termYears.getD 30
  if P ≤ 0 then .err "Missing or invalid price."
  else if D < 0 then .err "Missing or invalid downpayment."
  else if s < 300 ∨ 850 < s then .err "Missing or invalid creditScore."
  else
    let loan := max 0 (P - D)
    let apr := aprTierFromScore (some s)
    match pmtMonthlyPI (some loan) (some apr) (some y) with
    | none => .err "Unable to compute P&I."
    | some pi =>
      if pi ≤ 0 then .err "Unable to compute P&I."
      else
        let usedTax := taxRate.getD 0.020
        let usedIns := insuranceAnnual.getD 2400
        let usedHoa := hoaMonthly.getD 0
        let taxesMonthly := P * usedTax / 12
        let insMonthly := usedIns / 12
        let hoa := usedHoa
        let allIn := pi + taxesMonthly + insMonthly + hoa
        .ok { apr_assumed := apr
              loan_amount := round loan
              term_years := y
              breakdown :=
                { principal_interest := round pi
                  taxes := round taxesMonthly
                  insurance := round insMonthly
                  hoa := round hoa }
              all_in_monthly := round allIn
              assumptions_used :=
                { taxRate := usedTax, insuranceAnnual := usedIns, hoaMonthly := usedHoa } }

/-- The `quick_max_price` object of the quick-rails result. -/
structure QuickMaxPrice where
  price_0_down : Option ℤ
  price_5_down : Option ℤ
deriving DecidableEq

/-- The `assumptions` object of the quick-rails result. -/
structure QuickAssumptions where
  housing_cap_pct : ℚ
  buffer : ℚ
  apr_assumed : Option ℚ
  term_years : ℚ
deriving DecidableEq

/-- The quick-rails payload. -/
structure QuickRails where
  housing_cap_monthly : ℤ
  pi_target_monthly : ℤ
  assumptions : QuickAssumptions
  quick_max_price : QuickMaxPrice
deriving DecidableEq

/-- `v ? Math.round(v) : null` on a numeric slot, as used for the quick max prices. -/
def jsRoundIfTruthy (v : Option ℚ) : Option ℤ :=
  match v with
  | none => none
  | some q => if q = 0 then none else some (round q)

/-- `buildQuickAffordability({income, housingCapPct, buffer, apr, termYears})`
from elena-agent.js v2.2.0 (lines 413-444).  The JS default parameters
(`housingCapPct = 0.30`, `buffer = 1.28`, `termYears = 30`) are passed
explicitly by every caller in the handler. -/
def buildQuickAffordability (income : Option ℚ) (housingCapPct buffer : ℚ)
    (apr : Option ℚ) (termYears : ℚ) : Option QuickRails :=
  match income with
  | none => none
  | some inc =>
    if inc = 0 then none
    else
      let housingCap := inc * housingCapPct
      let piTarget := housingCap / buffer
      let principal0 := principalFromPmt (some piTarget) apr (some termYears)
      let price0 : Option ℚ := if jsTruthyNum principal0 then principal0 else none
      let price5 : Option ℚ :=
        if jsTruthyNum principal0 then principal0.map (fun p => p / 0.95) else none
      some
        { housing_cap_monthly := round housingCap
          pi_target_monthly := round piTarget
          assumptions :=
            { housing_cap_pct := housingCapPct
              buffer := buffer
              apr_assumed := apr
              term_years := termYears }
          quick_max_price :=
            { price_0_down := jsRoundIfTruthy price0
              price_5_down := jsRoundIfTruthy price5 } }

/-- `ratios` object of a verdict. -/
structure VerdictRatios where
  housingRatio : Option ℚ
  expenseRatio : Option ℚ
deriving DecidableEq

/-- The verdict payload of `computeVerdict`. -/
structure Verdict where
  status : String
  grade : String
  housingCap : Option ℤ
  ratios : VerdictRatios
  residual : Option ℤ
  notes : List String
deriving DecidableEq

/-- `computeVerdict({income, expenses, housingAllIn})` from elena-agent.js v2.2.0
(lines 556-623).  Note the JS truthiness test `if (!inc)`: both `null` and `0`
income take the first INSUFFICIENT branch. -/
def computeVerdict (income expenses housingAllIn : Option ℚ) : Verdict :=
  let exp : ℚ := expenses.getD 0
  let hou : Option ℚ :=
    match housingAllIn with
    | some h => if 0 < h then some h else none
    | none => none
  match income with
  | none =>
    { status := "INSUFFICIENT", grade := "N/A", housingCap := none
      ratios := { housingRatio := none, expenseRatio := none }
      residual := none
      notes := ["Missing income; cannot compute affordability rails."] }
  | some inc =>
    if inc = 0 then
      { status := "INSUFFICIENT", grade := "N/A", housingCap := none
        ratios := { housingRatio := none, expenseRatio := none }
        residual := none
        notes := ["Missing income; cannot compute affordability rails."] }
    else
      let housingCap := inc * 0.30
      match hou with
      | none =>
        { status := "INSUFFICIENT", grade := "N/A", housingCap := some (round housingCap)
          ratios := { housingRatio := none, expenseRatio := some (exp / inc) }
          residual := none
          notes := ["Missing housing estimate; using cap + quick rails only."] }
      | some h =>
        let housingRatio := h / inc
        let residual := inc - exp - h
        let cushionLow := inc * 0.05
        let cushionGood := inc * 0.12
        let status : String :=
          if residual < 0 then "NO-GO"
          else if housingCap < h then "NO-GO"
          else if residual < cushionLow then "CAUTION"
          else "GREEN"
        let notes : List String :=
          if residual < 0 then ["Residual income is negative after expenses + housing."]
          else if housingCap < h then ["Housing cost exceeds the 30% housing cap."]
          else if residual < cushionLow then ["Buffer is thin after expenses + housing."]
          else []
        let grade : String :=
          if status = "NO-GO" then "D"
          else if status = "CAUTION" then "C+"
          else if housingRatio ≤ 0.25 ∧ cushionGood ≤ residual then "A"
          else if housingRatio ≤ 0.28 ∧ cushionLow ≤ residual then "A-"
          else if housingRatio ≤ 0.30 ∧ cushionLow ≤ residual then "B+"
          else "B"
        { status := status, grade := grade, housingCap := some (round housingCap)
          ratios := { housingRatio := some housingRatio, expenseRatio := some (exp / inc) }
          residual := some (round residual)
          notes := notes }

/-- `listMissingInputs({...})` from elena-agent.js v2.2.0 (lines 540-551). -/
def listMissingInputs (income expenses creditScore downpayment price
    housingAllIn : Option ℚ) : List String :=
  (if income = none then ["income"] else []) ++
  (if expenses = none then ["expenses"] else []) ++
  (if (match housingAllIn with | none => true | some h => h ≤ 0) then
      (if price = none then ["price"] else []) ++
      (if downpayment = none then ["downpayment"] else []) ++
      (if creditScore = none then ["creditScore"] else [])
    else [])

/-- The `target` payload of a next action: `null`, a missing-inputs list, or a
price target object. -/
inductive ActionTarget where
  | null
  | missingList (missing : List String)
  | priceTarget (current_price target_price target_housing_cap : ℤ)
deriving DecidableEq

/-- A recommended next action. -/
structure NextAction where
  type : String
  target : ActionTarget
  why : String
deriving DecidableEq

/-- `pickNextAction({verdict, missing_inputs, price, housingAllIn})` from
elena-agent.js v2.2.0 (lines 625-684). -/
def pickNextAction (verdict : Option Verdict) (missing_inputs : List String)
    (price housingAllIn : Option ℚ) : NextAction :=
  let collect : NextAction :=
    if missing_inputs ≠ [] then
      { type := "collect_missing_inputs"
        target := .missingList missing_inputs
        why := "I can give quick rails now, and a tighter verdict once those inputs are provided." }
    else
      { type := "collect_missing_inputs"
        target := .null
        why := "Need more inputs to produce a defensible recommendation." }
  match verdict with
  | none => collect
  | some v =>
    if v.status = "INSUFFICIENT" then collect
    else if v.status = "NO-GO" then
      match price, housingAllIn, v.housingCap with
      | some pr, some hou, some cap =>
        if 0 < pr ∧ 0 < hou then
          let ratio := (cap : ℚ) / hou
          let targetPrice := roundTo (pr * ratio) 1000
          { type := "lower_price"
            target := .priceTarget (round pr) (max 0 (round targetPrice)) (round ((cap : ℚ)))
            why := "Brings estimated all-in housing closer to the 30% cap using your current scenario." }
        else
          { type := "adjust_scenario"
            target := .null
            why := "Lower price, increase downpayment, reduce expenses, or improve credit to reach GREEN." }
      | _, _, _ =>
        { type := "adjust_scenario"
          target := .null
          why := "Lower price, increase downpayment, reduce expenses, or improve credit to reach GREEN." }
    else if v.status = "CAUTION" then
      { type := "increase_buffer"
        target := .null
        why := "Small adjustments can move you from CAUTION to GREEN (more residual buffer)." }
    else
      { type := "lock_in_plan"
        target := .null
        why := "You’re in a stable range—next step is tightening assumptions and building the offer plan." }

/-- The credit-score resolution step of `buildScenario` (elena-agent.js v2.2.0,
lines 488-503): `pickFirst` over the layered sources, then
`creditScoreRaw ? clamp(Math.round(creditScoreRaw), 300, 850) : null`, falling
back to the hypothetical score parsed from the free-text question.  The
free-text parser `parseHypotheticalCreditScoreFromQuestion` is modelled by its
output `questionScore` (per its code it returns `null` or an integer in
[300,850]). -/
def resolveCreditScore (overridesCS fadCS scenarioCS scenarioScore
    questionScore : Option ℚ) : Option ℚ :=
  let creditScoreRaw := pickFirst [overridesCS, fadCS, scenarioCS, scenarioScore]
  match creditScoreRaw with
  | none => questionScore
  | some r =>
    if r = 0 then questionScore
    else some (clamp ((round r : ℤ) : ℚ) 300 850)

/-- The resolved scenario inputs consumed by the core stages of the handler
(values after `buildScenario` / income fallback; `termYears` is already the
clamped-or-default value, a plain number). -/
structure CoreInput where
  price : Option ℚ
  expenses : Option ℚ
  downpayment : Option ℚ
  creditScore : Option ℚ
  termYears : ℚ
  taxRate : Option ℚ
  insuranceAnnual : Option ℚ
  hoaMonthly : Option ℚ
  income : Option ℚ
deriving DecidableEq

/-- The core fields of the handler's response payload. -/
structure CoreOutput where
  mortgage : Option MortgageResult
  housingAllIn : Option ℚ
  quick : Option QuickRails
  verdict : Verdict
  missing_inputs : List String
  next_action : NextAction
deriving DecidableEq

/-- The core affordability computation of the handler (elena-agent.js v2.2.0,
lines 841-912): mortgage estimate guarded on presence of price/downpayment/
creditScore, ok-estimates with non-positive totals demoted to failures,
`housingAllIn` taken from the surviving estimate, then quick rails, verdict,
missing inputs and next action. -/
def runCore (inp : CoreInput) : CoreOutput :=
  let mortgage0 : Option MortgageResult :=
    if inp.price.isSome ∧ inp.downpayment.isSome ∧ inp.creditScore.isSome then
      some (estimateAllInHousing inp.price inp.downpayment inp.creditScore
        (some inp.termYears) inp.taxRate inp.insuranceAnnual inp.hoaMonthly)
    else none
  let mortgage : Option MortgageResult :=
    mortgage0.map (fun m =>
      match m with
      | .ok r => if 0 < r.all_in_monthly then .ok r else .err "Mortgage estimate failed."
      | .err s => .err s)
  let housingAllIn : Option ℚ :=
    match mortgage with
    | some (.ok r) => some ((r.all_in_monthly : ℚ))
    | _ => none
  let aprAssumed := aprTierFromScore inp.creditScore
  let quick := buildQuickAffordability inp.income 0.30 1.28 (some aprAssumed) inp.termYears
  let verdict := computeVerdict inp.income inp.expenses housingAllIn
  let missing := listMissingInputs inp.income inp.expenses inp.creditScore
    inp.downpayment inp.price housingAllIn
  let action := pickNextAction (some verdict) missing inp.price housingAllIn
  { mortgage := mortgage
    housingAllIn := housingAllIn
    quick := quick
    verdict := verdict
    missing_inputs := missing
    next_action := action }

/-- Mirrors the `hou` sanitisation of `computeVerdict`: the housing estimate is
usable iff it is a finite positive number. -/
def housingPresent : Option ℚ → Bool
  | none => false
  | some h => if 0 < h then true else false

/-- The maximally incomplete request: no financial inputs at all (`termYears`
is the resolver default 30). -/
def emptyInput : CoreInput :=
  { price := none, expenses := none, downpayment := none, creditScore := none
    termYears := 30, taxRate := none, insuranceAnnual := none, hoaMonthly := none
    income := none }

/-- A representative fully populated scenario input. -/
def sampleInput : CoreInput :=
  { price := some 400000, expenses := some 1500, downpayment := some 40000
    creditScore := some 760, termYears := 30, taxRate := none
    insuranceAnnual := none, hoaMonthly := none, income := some 6000 }

/-! ## The same core functions from the older handler version

`src/unnamed/part_003` is v2.0.0 of `elena-agent.js`.  Its finance-math and
verdict functions are embedded below under the `V200` namespace, translated
from that file's own text (lines 230-601), so that the two versions can be
compared. -/

namespace V200

/-- `aprTierFromScore(score)` from elena-agent.js v2.0.0 (part_003 lines 230-239). -/
def aprTierFromScore (score : Option ℚ) : ℚ :=
  match score with
  | none => 0.070
  | some s =>
    if s = 0 then 0.070
    else if 780 ≤ s then 0.0625
    else if 740 ≤ s then 0.0675
    else if 700 ≤ s then 0.0725
    else if 660 ≤ s then 0.0800
    else 0.0900

/-- `pmtMonthlyPI(principal, apr, termYears)` from v2.0.0 (part_003 lines 241-253). -/
def pmtMonthlyPI (principal apr termYears : Option ℚ) : Option ℚ :=
  match principal with
  | none => none
  | some p =>
    if p ≤ 0 then none
    else
      let y := termYears.getD 30
      let n : ℤ := round (y * 12)
      let r := (apr.getD 0.07) / 12
      if n ≤ 0 then none
      else if r ≤ 0 then some (p / (n : ℚ))
      else
        let pw := (1 + r) ^ n.toNat
        some (p * (r * pw) / (pw - 1))

/-- `principalFromPmt(targetPI, apr, termYears)` from v2.0.0 (part_003 lines 255-267). -/
def principalFromPmt (targetPI apr termYears : Option ℚ) : Option ℚ :=
  match targetPI with
  | none => none
  | some t =>
    if t ≤ 0 then none
    else
      let y := termYears.getD 30
      let n : ℤ := round (y * 12)
      let r := (apr.getD 0.07) / 12
      if n ≤ 0 then none
      else if r ≤ 0 then some (t * (n : ℚ))
      else
        let pw := (1 + r) ^ n.toNat
        some (t * (pw - 1) / (r * pw))

/-- `estimateAllInHousing({...})` from v2.0.0 (part_003 lines 271-325). -/
def estimateAllInHousing (price downpayment creditScore termYears
    taxRate insuranceAnnual hoaMonthly : Option ℚ) : MortgageResult :=
  let P := jsNumber price
  let D := jsNumber downpayment
  let s := jsNumber creditScore
  let y := termYears.getD 30
  if P ≤ 0 then .err "Missing or invalid price."
  else if D < 0 then .err "Missing or invalid downpayment."
  else if s < 300 ∨ 850 < s then .err "Missing or invalid creditScore."
  else
    let loan := max 0 (P - D)
    let apr := aprTierFromScore (some s)
    match pmtMonthlyPI (some loan) (some apr) (some y) with
    | none => .err "Unable to compute P&I."
    | some pi =>
      if pi ≤ 0 then .err "Unable to compute P&I."
      else
        let usedTax := taxRate.getD 0.020
        let usedIns := insuranceAnnual.getD 2400
        let usedHoa := hoaMonthly.getD 0
        let taxesMonthly := P * usedTax / 12
        let insMonthly := usedIns / 12
        let hoa := usedHoa
        let allIn := pi + taxesMonthly + insMonthly + hoa
        .ok { apr_assumed := apr
              loan_amount := round loan
              term_years := y
              breakdown :=
                { principal_interest := round pi
                  taxes := round taxesMonthly
                  insurance := round insMonthly
                  hoa := round hoa }
              all_in_monthly := round allIn
              assumptions_used :=
                { taxRate := usedTax, insuranceAnnual := usedIns, hoaMonthly := usedHoa } }

/-- `buildQuickAffordability({...})` from v2.0.0 (part_003 lines 327-358). -/
def buildQuickAffordability (income : Option ℚ) (housingCapPct buffer : ℚ)
    (apr : Option ℚ) (termYears : ℚ) : Option QuickRails :=
  match income with
  | none => none
  | some inc =>
    if inc = 0 then none
    else
      let housingCap := inc * housingCapPct
      let piTarget := housingCap / buffer
      let principal0 := principalFromPmt (some piTarget) apr (some termYears)
      let price0 : Option ℚ := if jsTruthyNum principal0 then principal0 else none
      let price5 : Option ℚ :=
        if jsTruthyNum principal0 then principal0.map (fun p => p / 0.95) else none
      some
        { housing_cap_monthly := round housingCap
          pi_target_monthly := round piTarget
          assumptions :=
            { housing_cap_pct := housingCapPct
              buffer := buffer
              apr_assumed := apr
              term_years := termYears }
          quick_max_price :=
            { price_0_down := jsRoundIfTruthy price0
              price_5_down := jsRoundIfTruthy price5 } }

/-- `computeVerdict({income, expenses, housingAllIn})` from v2.0.0 (part_003 lines 473-540). -/
def computeVerdict (income expenses housingAllIn : Option ℚ) : Verdict :=
  let exp : ℚ := expenses.getD 0
  let hou : Option ℚ :=
    match housingAllIn with
    | some h => if 0 < h then some h else none
    | none => none
  match income with
  | none =>
    { status := "INSUFFICIENT", grade := "N/A", housingCap := none
      ratios := { housingRatio := none, expenseRatio := none }
      residual := none
      notes := ["Missing income; cannot compute affordability rails."] }
  | some inc =>
    if inc = 0 then
      { status := "INSUFFICIENT", grade := "N/A", housingCap := none
        ratios := { housingRatio := none, expenseRatio := none }
        residual := none
        notes := ["Missing income; cannot compute affordability rails."] }
    else
      let housingCap := inc * 0.30
      match hou with
      | none =>
        { status := "INSUFFICIENT", grade := "N/A", housingCap := some (round housingCap)
          ratios := { housingRatio := none, expenseRatio := some (exp / inc) }
          residual := none
          notes := ["Missing housing estimate; using cap + quick rails only."] }
      | some h =>
        let housingRatio := h / inc
        let residual := inc - exp - h
        let cushionLow := inc * 0.05
        let cushionGood := inc * 0.12
        let status : String :=
          if residual < 0 then "NO-GO"
          else if housingCap < h then "NO-GO"
          else if residual < cushionLow then "CAUTION"
          else "GREEN"
        let notes : List String :=
          if residual < 0 then ["Residual income is negative after expenses + housing."]
          else if housingCap < h then ["Housing cost exceeds the 30% housing cap."]
          else if residual < cushionLow then ["Buffer is thin after expenses + housing."]
          else []
        let grade : String :=
          if status = "NO-GO" then "D"
          else if status = "CAUTION" then "C+"
          else if housingRatio ≤ 0.25 ∧ cushionGood ≤ residual then "A"
          else if housingRatio ≤ 0.28 ∧ cushionLow ≤ residual then "A-"
          else if housingRatio ≤ 0.30 ∧ cushionLow ≤ residual then "B+"
          else "B"
        { status := status, grade := grade, housingCap := some (round housingCap)
          ratios := { housingRatio := some housingRatio, expenseRatio := some (exp / inc) }
          residual := some (round residual)
          notes := notes }

/-- `pickNextAction({verdict, missing_inputs, price, housingAllIn})` from v2.0.0
(part_003 lines 542-601). -/
def pickNextAction (verdict : Option Verdict) (missing_inputs : List String)
    (price housingAllIn : Option ℚ) : NextAction :=
  let collect : NextAction :=
    if missing_inputs ≠ [] then
      { type := "collect_missing_inputs"
        target := .missingList missing_inputs
        why := "I can give quick rails now, and a tighter verdict once those inputs are provided." }
    else
      { type := "collect_missing_inputs"
        target := .null
        why := "Need more inputs to produce a defensible recommendation." }
  match verdict with
  | none => collect
  | some v =>
    if v.status = "INSUFFICIENT" then collect
    else if v.status = "NO-GO" then
      match price, housingAllIn, v.housingCap with
      | some pr, some hou, some cap =>
        if 0 < pr ∧ 0 < hou then
          let ratio := (cap : ℚ) / hou
          let targetPrice := roundTo (pr * ratio) 1000
          { type := "lower_price"
            target := .priceTarget (round pr) (max 0 (round targetPrice)) (round ((cap : ℚ)))
            why := "Brings estimated all-in housing closer to the 30% cap using your current scenario." }
        else
          { type := "adjust_scenario"
            target := .null
            why := "Lower price, increase downpayment, reduce expenses, or improve credit to reach GREEN." }
      | _, _, _ =>
        { type := "adjust_scenario"
          target := .null
          why := "Lower price, increase downpayment, reduce expenses, or improve credit to reach GREEN." }
    else if v.status = "CAUTION" then
      { type := "increase_buffer"
        target := .null
        why := "Small adjustments can move you from CAUTION to GREEN (more residual buffer)." }
    else
      { type := "lock_in_plan"
        target := .null
        why := "You’re in a stable range—next step is tightening assumptions and building the offer plan." }

end V200

/-! ## Shared helper lemmas -/

/-- Evaluate `round` (= JS `Math.round`) on a rational by bracketing `q + 1/2`. -/
theorem round_val {q : ℚ} {z : ℤ} (h1 : (z : ℚ) ≤ q + 1/2) (h2 : q + 1/2 < (z : ℚ) + 1) :
    round q = z := by
  rw [round_eq]
  exact Int.floor_eq_iff.mpr ⟨h1, h2⟩

/-- `round` is monotone. -/
theorem round_le_round {x y : ℚ} (h : x ≤ y) : round x ≤ round y := by
  rw [round_eq, round_eq]
  exact Int.floor_le_floor (by linarith)

/-- Rounding a four-part sum once differs from the sum of the four individually
rounded parts by at most 2 whole units. -/
theorem round_sum_four_drift (a b c d : ℚ) :
    |round (a + b + c + d) - (round a + round b + round c + round d)| ≤ 2 := by
  have h0 := abs_sub_round (a + b + c + d)
  have ha := abs_sub_round a
  have hb := abs_sub_round b
  have hc := abs_sub_round c
  have hd := abs_sub_round d
  rw [abs_le] at h0 ha hb hc hd
  have key : (((|round (a + b + c + d) - (round a + round b + round c + round d)| : ℤ)) : ℚ) ≤ 5/2 := by
    rw [Int.cast_abs]
    rw [abs_le]
    push_cast
    constructor <;> linarith
  by_contra hcon
  push_neg at hcon
  have h3 : (3:ℤ) ≤ |round (a + b + c + d) - (round a + round b + round c + round d)| := by omega
  have h3q : ((3:ℤ):ℚ) ≤ (((|round (a + b + c + d) - (round a + round b + round c + round d)| : ℤ)) : ℚ) :=
    Int.cast_le.mpr h3
  rw [show ((3:ℤ):ℚ) = 3 from by norm_num] at h3q
  linarith

/-- Branch evaluation of `pmtMonthlyPI` in the positive-rate case. -/
theorem pmtMonthlyPI_eval (p : ℚ) (apr termYears : Option ℚ) (hp : ¬ p ≤ 0)
    (hn : ¬ (round (termYears.getD 30 * 12) : ℤ) ≤ 0)
    (hr : ¬ (apr.getD 0.07) / 12 ≤ 0) :
    pmtMonthlyPI (some p) apr termYears =
      some (p * (((apr.getD 0.07) / 12) *
          (1 + (apr.getD 0.07) / 12) ^ (round (termYears.getD 30 * 12) : ℤ).toNat) /
        ((1 + (apr.getD 0.07) / 12) ^ (round (termYears.getD 30 * 12) : ℤ).toNat - 1)) := by
  simp only [pmtMonthlyPI]
  rw [if_neg hp, if_neg hn, if_neg hr]

/-- Branch evaluation of `principalFromPmt` in the zero-rate case
(`if (r <= 0) return targetPI * n`). -/
theorem principalFromPmt_eval_zero_rate (t : ℚ) (apr termYears : Option ℚ) (ht : ¬ t ≤ 0)
    (hn : ¬ (round (termYears.getD 30 * 12) : ℤ) ≤ 0) (hr : (apr.getD 0.07) / 12 ≤ 0) :
    principalFromPmt (some t) apr termYears =
      some (t * ((round (termYears.getD 30 * 12) : ℤ) : ℚ)) := by
  simp only [principalFromPmt]
  rw [if_neg ht, if_neg hn, if_pos hr]

/-- Whatever `principalFromPmt` returns is positive. -/
theorem principalFromPmt_pos (t : ℚ) (apr termYears : Option ℚ) (p : ℚ)
    (h : principalFromPmt (some t) apr termYears = some p) : 0 < p := by
  simp only [principalFromPmt] at h
  split_ifs at h with h1 h2 h3
  · rw [Option.some_inj] at h
    subst h
    have hn : (0:ℤ) < round ((termYears.getD 30) * 12) := lt_of_not_le h2
    have hq : (0:ℚ) < ((round ((termYears.getD 30) * 12) : ℤ) : ℚ) := by exact_mod_cast hn
    have ht : 0 < t := lt_of_not_le h1
    positivity
  · rw [Option.some_inj] at h
    subst h
    have ht : 0 < t := lt_of_not_le h1
    have hr : 0 < (apr.getD 0.07) / 12 := lt_of_not_le h3
    have hn : (0:ℤ) < round ((termYears.getD 30) * 12) := lt_of_not_le h2
    have hnn : (round ((termYears.getD 30) * 12) : ℤ).toNat ≠ 0 := by omega
    have hpw : 1 < (1 + (apr.getD 0.07) / 12) ^ (round ((termYears.getD 30) * 12) : ℤ).toNat :=
      one_lt_pow₀ (by linarith) hnn
    have h1p : (0:ℚ) < (1 + (apr.getD 0.07) / 12) ^ (round ((termYears.getD 30) * 12) : ℤ).toNat := by
      positivity
    exact div_pos (mul_pos ht (by linarith)) (mul_pos hr h1p)

/-- Branch evaluation of `estimateAllInHousing` in the success case. -/
theorem estimateAllInHousing_ok (price downpayment creditScore termYears
    taxRate insuranceAnnual hoaMonthly : Option ℚ) (pi : ℚ)
    (hP : ¬ jsNumber price ≤ 0) (hD : ¬ jsNumber downpayment < 0)
    (hs : ¬ (jsNumber creditScore < 300 ∨ 850 < jsNumber creditScore))
    (hpi : pmtMonthlyPI (some (max 0 (jsNumber price - jsNumber downpayment)))
      (some (aprTierFromScore (some (jsNumber creditScore)))) (some (termYears.getD 30)) = some pi)
    (hpip : ¬ pi ≤ 0) :
    estimateAllInHousing price downpayment creditScore termYears taxRate insuranceAnnual hoaMonthly =
      .ok { apr_assumed := aprTierFromScore (some (jsNumber creditScore))
            loan_amount := round (max 0 (jsNumber price - jsNumber downpayment))
            term_years := termYears.getD 30
            breakdown :=
              { principal_interest := round pi
                taxes := round (jsNumber price * taxRate.getD 0.020 / 12)
                insurance := round (insuranceAnnual.getD 2400 / 12)
                hoa := round (hoaMonthly.getD 0) }
            all_in_monthly := round (pi + jsNumber price * taxRate.getD 0.020 / 12 +
              insuranceAnnual.getD 2400 / 12 + hoaMonthly.getD 0)
            assumptions_used :=
              { taxRate := taxRate.getD 0.020, insuranceAnnual := insuranceAnnual.getD 2400,
                hoaMonthly := hoaMonthly.getD 0 } } := by
  simp only [estimateAllInHousing]
  rw [if_neg hP, if_neg hD, if_neg hs, hpi]
  simp only [if_neg hpip]

/-- Exact evaluation of the estimator at price 100000, no downpayment, boundary
credit score 300, one-year term (APR tier 9.00%). -/
theorem est_score300_eval :
    estimateAllInHousing (some 100000) (some 0) (some 300) (some 1) none none none =
      .ok { apr_assumed := 0.0900, loan_amount := 100000, term_years := 1
            breakdown := { principal_interest := 8745, taxes := 167, insurance := 200, hoa := 0 }
            all_in_monthly := 9112
            assumptions_used := { taxRate := 0.020, insuranceAnnual := 2400, hoaMonthly := 0 } } := by
  have hapr : aprTierFromScore (some (jsNumber (some (300:ℚ)))) = 0.0900 := by
    norm_num [aprTierFromScore, jsNumber]
  have hpi : pmtMonthlyPI (some (max 0 (jsNumber (some (100000:ℚ)) - jsNumber (some (0:ℚ)))))
      (some (aprTierFromScore (some (jsNumber (some (300:ℚ)))))) (some ((some (1:ℚ)).getD 30)) =
      some (100000 * ((3/400 : ℚ) * (1 + 3/400)^12) / ((1 + 3/400)^12 - 1)) := by
    rw [hapr]
    rw [pmtMonthlyPI_eval _ _ _ (by norm_num [jsNumber]) (by norm_num) (by norm_num)]
    norm_num [jsNumber, show ((12:ℤ)).toNat = 12 from rfl]
  rw [estimateAllInHousing_ok _ _ _ _ _ _ _ _
    (by norm_num [jsNumber]) (by norm_num [jsNumber]) (by norm_num [jsNumber]) hpi (by norm_num)]
  simp only [jsNumber, Option.getD_some, Option.getD_none]
  rw [show round (100000 * ((3/400 : ℚ) * (1 + 3/400)^12) / ((1 + 3/400)^12 - 1)) = 8745 from
    round_val (by norm_num) (by norm_num)]
  rw [show round ((100000 * ((3/400 : ℚ) * (1 + 3/400)^12) / ((1 + 3/400)^12 - 1)) +
      (100000 : ℚ) * 0.020 / 12 + (2400 : ℚ) / 12 + 0) = 9112 from
    round_val (by norm_num) (by norm_num)]
  rw [show round (max (0:ℚ) (100000 - 0)) = 100000 from round_val (by norm_num) (by norm_num)]
  rw [show round ((100000:ℚ) * 0.020 / 12) = 167 from round_val (by norm_num) (by norm_num)]
  rw [show round ((2400:ℚ) / 12) = 200 from round_val (by norm_num) (by norm_num)]
  rw [show aprTierFromScore (some 300) = 0.0900 from by norm_num [aprTierFromScore]]
  norm_num

/-- Exact evaluation of the estimator at the other credit-score boundary, 850
(APR tier 6.25%). -/
theorem est_score850_eval :
    estimateAllInHousing (some 100000) (some 0) (some 850) (some 1) none none none =
      .ok { apr_assumed := 0.0625, loan_amount := 100000, term_years := 1
            breakdown := { principal_interest := 8618, taxes := 167, insurance := 200, hoa := 0 }
            all_in_monthly := 8985
            assumptions_used := { taxRate := 0.020, insuranceAnnual := 2400, hoaMonthly := 0 } } := by
  have hapr : aprTierFromScore (some (jsNumber (some (850:ℚ)))) = 0.0625 := by
    norm_num [aprTierFromScore, jsNumber]
  have hpi : pmtMonthlyPI (some (max 0 (jsNumber (some (100000:ℚ)) - jsNumber (some (0:ℚ)))))
      (some (aprTierFromScore (some (jsNumber (some (850:ℚ)))))) (some ((some (1:ℚ)).getD 30)) =
      some (100000 * ((1/192 : ℚ) * (1 + 1/192)^12) / ((1 + 1/192)^12 - 1)) := by
    rw [hapr]
    rw [pmtMonthlyPI_eval _ _ _ (by norm_num [jsNumber]) (by norm_num) (by norm_num)]
    norm_num [jsNumber, show ((12:ℤ)).toNat = 12 from rfl]
  rw [estimateAllInHousing_ok _ _ _ _ _ _ _ _
    (by norm_num [jsNumber]) (by norm_num [jsNumber]) (by norm_num [jsNumber]) hpi (by norm_num)]
  simp only [jsNumber, Option.getD_some, Option.getD_none]
  rw [show round (100000 * ((1/192 : ℚ) * (1 + 1/192)^12) / ((1 + 1/192)^12 - 1)) = 8618 from
    round_val (by norm_num) (by norm_num)]
  rw [show round ((100000 * ((1/192 : ℚ) * (1 + 1/192)^12) / ((1 + 1/192)^12 - 1)) +
      (100000 : ℚ) * 0.020 / 12 + (2400 : ℚ) / 12 + 0) = 8985 from
    round_val (by norm_num) (by norm_num)]
  rw [show round (max (0:ℚ) (100000 - 0)) = 100000 from round_val (by norm_num) (by norm_num)]
  rw [show round ((100000:ℚ) * 0.020 / 12) = 167 from round_val (by norm_num) (by norm_num)]
  rw [show round ((2400:ℚ) / 12) = 200 from round_val (by norm_num) (by norm_num)]
  rw [show aprTierFromScore (some 850) = 0.0625 from by norm_num [aprTierFromScore]]
  norm_num

/-- Branch evaluation of `pickNextAction` for a NO-GO verdict with full
price/housing data: the action is `lower_price` and the target price is
`max(0, Math.round(roundTo(price * cap/housingAllIn, 1000)))`. -/
theorem pickNextAction_nogo_eval (v : Verdict) (miss : List String) (pr hou : ℚ) (cap : ℤ)
    (hst : v.status = "NO-GO") (hcap : v.housingCap = some cap) (hpr : 0 < pr) (hhou : 0 < hou) :
    pickNextAction (some v) miss (some pr) (some hou) =
      { type := "lower_price"
        target := .priceTarget (round pr) (max 0 (round (roundTo (pr * ((cap : ℚ) / hou)) 1000)))
          (round ((cap : ℚ)))
        why := "Brings estimated all-in housing closer to the 30% cap using your current scenario." } := by
  simp only [pickNextAction, hst, hcap]
  simp [hpr, hhou]

/-! ## Claim C1 -/

/-- C1 counterexample: at the valid estimator input price 1440, downpayment 100,
creditScore 760, termYears 1, insuranceAnnual 2404.8, hoaMonthly 10.4, the
reported `all_in_monthly` is 329 while the breakdown components sum to 328:
the code rounds the sum once (`Math.round(allIn)`), it does not sum the
individually rounded components, so the claimed exact identity fails. -/
theorem claim1_counterexample :
    (0:ℚ) < 1440 ∧ (0:ℚ) ≤ 100 ∧ (100:ℚ) < 1440 ∧ (300:ℚ) ≤ 760 ∧ (760:ℚ) ≤ 850 ∧
    (estimateAllInHousing (some 1440) (some 100) (some 760) (some 1) none (some (12024/5))
      (some (52/5))).allInMonthly = some 329 ∧
    (estimateAllInHousing (some 1440) (some 100) (some 760) (some 1) none (some (12024/5))
      (some (52/5))).breakdownSum = some 328 ∧
    (329 : ℤ) ≠ 328 := by
  have hapr : aprTierFromScore (some (jsNumber (some (760:ℚ)))) = 0.0675 := by
    norm_num [aprTierFromScore, jsNumber]
  have hpi : pmtMonthlyPI (some (max 0 (jsNumber (some (1440:ℚ)) - jsNumber (some (100:ℚ)))))
      (some (aprTierFromScore (some (jsNumber (some (760:ℚ)))))) (some ((some (1:ℚ)).getD 30)) =
      some (1340 * ((9/1600 : ℚ) * (1 + 9/1600)^12) / ((1 + 9/1600)^12 - 1)) := by
    rw [hapr]
    rw [pmtMonthlyPI_eval _ _ _ (by norm_num [jsNumber]) (by norm_num) (by norm_num)]
    norm_num [jsNumber, show ((12:ℤ)).toNat = 12 from rfl]
  rw [estimateAllInHousing_ok _ _ _ _ _ _ _ _
    (by norm_num [jsNumber]) (by norm_num [jsNumber]) (by norm_num [jsNumber]) hpi (by norm_num)]
  simp only [MortgageResult.allInMonthly, MortgageResult.breakdownSum, jsNumber,
    Option.getD_some, Option.getD_none]
  rw [show round ((1340 * ((9/1600 : ℚ) * (1 + 9/1600)^12) / ((1 + 9/1600)^12 - 1)) +
      (1440 : ℚ) * 0.020 / 12 + (12024/5 : ℚ) / 12 + (52/5 : ℚ)) = 329 from
    round_val (by norm_num) (by norm_num)]
  rw [show round (1340 * ((9/1600 : ℚ) * (1 + 9/1600)^12) / ((1 + 9/1600)^12 - 1)) = 116 from
    round_val (by norm_num) (by norm_num)]
  rw [show round ((1440:ℚ) * 0.020 / 12) = 2 from round_val (by norm_num) (by norm_num)]
  rw [show round ((12024/5 : ℚ) / 12) = 200 from round_val (by norm_num) (by norm_num)]
  rw [show round ((52/5 : ℚ)) = 10 from round_val (by norm_num) (by norm_num)]
  norm_num

/-- C1 (amended): for every input on which `estimateAllInHousing` succeeds, the
reported `all_in_monthly` equals `round(PI + taxes + insurance + hoa)` — the
sum rounded once — and therefore agrees with the sum of the four individually
rounded breakdown components only up to a bounded drift of at most 2 currency
units (the exact identity claimed by the spec does not hold, see the
counterexample). -/
theorem claim1_allin_drift_bounded (price downpayment creditScore termYears
    taxRate insuranceAnnual hoaMonthly : Option ℚ) (m : MortgageOk)
    (h : estimateAllInHousing price downpayment creditScore termYears taxRate insuranceAnnual
      hoaMonthly = .ok m) :
    |m.all_in_monthly - (m.breakdown.principal_interest + m.breakdown.taxes +
      m.breakdown.insurance + m.breakdown.hoa)| ≤ 2 := by
  simp only [estimateAllInHousing] at h
  split_ifs at h
  rcases hpmt : pmtMonthlyPI (some (max 0 (jsNumber price - jsNumber downpayment)))
      (some (aprTierFromScore (some (jsNumber creditScore)))) (some (termYears.getD 30)) with _ | pi
  · rw [hpmt] at h
    simp at h
  · rw [hpmt] at h
    by_cases hple : pi ≤ 0
    · simp [hple] at h
    · simp only [if_neg hple, MortgageResult.ok.injEq] at h
      subst h
      exact round_sum_four_drift _ _ _ _

/-- C1 witness: the drift bound instantiated at a concrete successful estimate
(price 100000, downpayment 0, creditScore 300, termYears 1). -/
theorem claim1_allin_drift_bounded_witness :
    estimateAllInHousing (some 100000) (some 0) (some 300) (some 1) none none none =
      .ok { apr_assumed := 0.0900, loan_amount := 100000, term_years := 1
            breakdown := { principal_interest := 8745, taxes := 167, insurance := 200, hoa := 0 }
            all_in_monthly := 9112
            assumptions_used := { taxRate := 0.020, insuranceAnnual := 2400, hoaMonthly := 0 } } ∧
    |(9112 : ℤ) - (8745 + 167 + 200 + 0)| ≤ 2 :=
  ⟨est_score300_eval, claim1_allin_drift_bounded _ _ _ _ _ _ _ _ est_score300_eval⟩

/-! ## Claim C3 -/

/-- C3 counterexample: with income present but equal to 0 and a positive housing
estimate 1000, the verdict is INSUFFICIENT — the JS truthiness test `if (!inc)`
conflates zero income with missing income, so "INSUFFICIENT iff income missing
or housing missing" fails. -/
theorem claim3_counterexample :
    (some (0:ℚ)).isSome = true ∧ (0:ℚ) < 1000 ∧
    (computeVerdict (some 0) (some 0) (some 1000)).status = "INSUFFICIENT" := by
  refine ⟨rfl, by norm_num, ?_⟩
  simp [computeVerdict]

/-- C3 (amended): `computeVerdict` returns status INSUFFICIENT iff the income
slot is falsy (missing or zero) or the housing estimate is not a positive
number; otherwise the status comes from the residual/housing-ratio thresholds
and is never INSUFFICIENT. -/
theorem claim3_insufficient_iff :
    ∀ income expenses housingAllIn : Option ℚ,
      ((computeVerdict income expenses housingAllIn).status = "INSUFFICIENT") ↔
        (jsTruthyNum income = false ∨ housingPresent housingAllIn = false) := by
  intro i e h
  rcases i with _ | inc
  · simp [computeVerdict, jsTruthyNum]
  · rcases eq_or_ne inc 0 with rfl | hinc
    · simp [computeVerdict, jsTruthyNum]
    · rcases h with _ | hv
      · simp [computeVerdict, jsTruthyNum, housingPresent, hinc]
      · by_cases hpos : 0 < hv
        · simp only [computeVerdict, housingPresent, jsTruthyNum, if_neg hinc, if_pos hpos]
          split_ifs <;> simp_all
        · simp [computeVerdict, jsTruthyNum, housingPresent, hinc, hpos]

/-! ## Claim C4 -/

/-- C4 counterexample: income is finite (0), housingAllIn is finite and
positive (100), and the residual income − expenses − housing = −150 is
negative, yet the verdict is INSUFFICIENT rather than the claimed NO-GO,
because zero income takes the falsy-income branch first. -/
theorem claim4_counterexample :
    ((0:ℚ) - (some (50:ℚ)).getD 0 - 100 < 0) ∧ (0:ℚ) < 100 ∧
    (computeVerdict (some 0) (some 50) (some 100)).status = "INSUFFICIENT" ∧
    (computeVerdict (some 0) (some 50) (some 100)).status ≠ "NO-GO" := by
  refine ⟨by norm_num, by norm_num, ?_, ?_⟩ <;> simp [computeVerdict]

/-- C4 (amended): for finite nonzero income, finite positive housingAllIn and
negative residual, the verdict is NO-GO with grade D and the negative-residual
note — the negative-residual check is evaluated first and dominates. -/
theorem claim4_negative_residual_nogo (inc h : ℚ) (expenses : Option ℚ)
    (hinc : inc ≠ 0) (hpos : 0 < h) (hres : inc - expenses.getD 0 - h < 0) :
    (computeVerdict (some inc) expenses (some h)).status = "NO-GO" ∧
    (computeVerdict (some inc) expenses (some h)).grade = "D" ∧
    (computeVerdict (some inc) expenses (some h)).notes =
      ["Residual income is negative after expenses + housing."] := by
  simp only [computeVerdict, if_neg hinc, if_pos hpos]
  simp only [if_pos hres, Verdict.status, Verdict.grade, Verdict.notes]
  norm_num

/-- C4 witness: income 1000, expenses 500, housing 600 (residual −100 < 0)
yields NO-GO / D with the negative-residual note. -/
theorem claim4_negative_residual_nogo_witness :
    ((1000:ℚ) ≠ 0) ∧ ((0:ℚ) < 600) ∧ ((1000:ℚ) - (some (500:ℚ)).getD 0 - 600 < 0) ∧
    (computeVerdict (some 1000) (some 500) (some 600)).status = "NO-GO" ∧
    (computeVerdict (some 1000) (some 500) (some 600)).grade = "D" :=
  ⟨by norm_num, by norm_num, by norm_num,
    (claim4_negative_residual_nogo 1000 600 (some 500) (by norm_num) (by norm_num)
      (by norm_num)).1,
    (claim4_negative_residual_nogo 1000 600 (some 500) (by norm_num) (by norm_num)
      (by norm_num)).2.1⟩

/-! ## Claim C2 -/

/-- C2 counterexample: a creditScore of 851 supplied in overrides is NOT
rejected or ignored — `buildScenario` clamps it to 850
(`clamp(Math.round(raw), 300, 850)`), and a mortgage estimate IS then produced
from the clamped value, contradicting "no mortgage estimate is produced from
an out-of-range score". -/
theorem claim2_counterexample :
    resolveCreditScore (some 851) none none none none = some 850 ∧
    (estimateAllInHousing (some 100000) (some 0)
      (resolveCreditScore (some 851) none none none none) (some 1) none none none).isOk
      = true := by
  have h1 : resolveCreditScore (some 851) none none none none = some 850 := by
    simp only [resolveCreditScore, pickFirst]
    rw [if_neg (by norm_num : ¬ (851:ℚ) = 0)]
    rw [show round ((851:ℚ)) = 851 from by norm_num]
    norm_num [clamp]
  refine ⟨h1, ?_⟩
  rw [h1, est_score850_eval]
  rfl

/-- C2 (amended): creditScore 300 and 850 are both accepted (inclusive bounds),
and a score outside [300,850] passed directly to the estimator is a hard
failure with the descriptive reason "Missing or invalid creditScore."; but an
out-of-range score supplied through the scenario resolver is clamped into
[300,850] (851 becomes 850, 299 becomes 300), after which an estimate IS
produced — it is not rejected or ignored. -/
theorem claim2_creditScore_boundaries :
    (∀ price downpayment termYears taxRate insuranceAnnual hoaMonthly : Option ℚ, ∀ s : ℚ,
        ¬ jsNumber price ≤ 0 → ¬ jsNumber downpayment < 0 → (s < 300 ∨ 850 < s) →
        estimateAllInHousing price downpayment (some s) termYears taxRate insuranceAnnual
          hoaMonthly = .err "Missing or invalid creditScore.") ∧
    (∀ (r : ℚ) (questionScore : Option ℚ), r ≠ 0 →
        ∃ v, resolveCreditScore (some r) none none none questionScore = some v ∧
          300 ≤ v ∧ v ≤ 850) ∧
    (estimateAllInHousing (some 100000) (some 0) (some 300) (some 1) none none none).isOk
      = true ∧
    (estimateAllInHousing (some 100000) (some 0) (some 850) (some 1) none none none).isOk
      = true := by
  refine ⟨?_, ?_, ?_, ?_⟩
  · intro price downpayment termYears taxRate insuranceAnnual hoaMonthly s hP hD hs
    simp only [estimateAllInHousing, jsNumber, Option.getD_some] at hP hD ⊢
    rw [if_neg hP, if_neg hD, if_pos hs]
  · intro r q hr
    refine ⟨clamp ((round r : ℤ) : ℚ) 300 850, ?_, le_max_left _ _,
      max_le (by norm_num) (min_le_left _ _)⟩
    simp [resolveCreditScore, pickFirst, hr]
  · rw [est_score300_eval]
    rfl
  · rw [est_score850_eval]
    rfl

/-- C2 witness: a direct score of 901 is a hard estimator failure, while 901
through the resolver yields a clamped in-range value. -/
theorem claim2_creditScore_boundaries_witness :
    estimateAllInHousing (some 1000) (some 0) (some 901) (some 1) none none none
      = .err "Missing or invalid creditScore." ∧
    (∃ v, resolveCreditScore (some 901) none none none none = some v ∧ 300 ≤ v ∧ v ≤ 850) :=
  ⟨claim2_creditScore_boundaries.1 _ _ _ _ _ _ 901 (by norm_num [jsNumber])
      (by norm_num [jsNumber]) (by norm_num),
    claim2_creditScore_boundaries.2.1 901 none (by norm_num)⟩

/-! ## Claim C5 -/

/-- C5 counterexample: with a NO-GO verdict whose housing cap is negative
(income −6000 through `computeVerdict`), price 400000 and housingAllIn 3202,
the code clamps the target price to `max(0, ...) = 0`, while the claimed
formula `round_to_1000(price × cap/housingAllIn)` evaluates to −225000 — so
`target_price = round_to_1000(price × (housingCap/housingAllIn))` does not
hold as stated. -/
theorem claim5_counterexample :
    (computeVerdict (some (-6000)) (some 1500) (some 3202)).status = "NO-GO" ∧
    (computeVerdict (some (-6000)) (some 1500) (some 3202)).housingCap = some (-1800) ∧
    (pickNextAction (some (computeVerdict (some (-6000)) (some 1500) (some 3202))) []
      (some 400000) (some 3202)).target = .priceTarget 400000 0 (-1800) ∧
    roundTo ((400000:ℚ) * ((-1800:ℚ) / 3202)) 1000 = -225000 ∧
    ((0:ℤ) ≠ -225000) := by
  have hr1 : round ((-1800:ℚ)) = -1800 := round_val (by norm_num) (by norm_num)
  have hr2 : round ((-10702:ℚ)) = -10702 := round_val (by norm_num) (by norm_num)
  have hr3 : round (-(360000/1601 : ℚ)) = -225 := round_val (by norm_num) (by norm_num)
  have hv : computeVerdict (some (-6000)) (some 1500) (some 3202) =
      { status := "NO-GO", grade := "D", housingCap := some (-1800)
        ratios := { housingRatio := some (3202 / -6000), expenseRatio := some (1500 / -6000) }
        residual := some (-10702)
        notes := ["Residual income is negative after expenses + housing."] } := by
    norm_num [computeVerdict, hr1, hr2]
  have hround : roundTo ((400000:ℚ) * ((-1800:ℚ) / 3202)) 1000 = -225000 := by
    rw [roundTo]
    rw [show (400000:ℚ) * ((-1800:ℚ) / 3202) / 1000 = -(360000/1601 : ℚ) from by norm_num]
    rw [hr3]
    norm_num
  refine ⟨by rw [hv], by rw [hv], ?_, hround, by norm_num⟩
  rw [hv, pickNextAction_nogo_eval _ [] 400000 3202 (-1800) rfl rfl (by norm_num) (by norm_num)]
  rw [show (((-1800 : ℤ)) : ℚ) = -1800 from by norm_num]
  rw [hround]
  rw [show round ((-225000:ℚ)) = -225000 from round_val (by norm_num) (by norm_num)]
  rw [hr1]
  norm_num

/-- C5 (amended): for every NO-GO verdict with finite positive price and
housingAllIn and a finite housingCap, `pickNextAction` returns the
`lower_price` action with
`target_price = max(0, round_to_1000(price × housingCap/housingAllIn))` —
the claimed formula holds once clamped at zero (the clamp only matters for
negative caps, see the counterexample); in the concrete scenario income 6000,
expenses 1500, allInMonthly 3202, price 400000 the target is 225000 (see the
witness). -/
theorem claim5_nogo_lower_price (v : Verdict) (miss : List String) (pr hou : ℚ) (cap : ℤ)
    (hst : v.status = "NO-GO") (hcap : v.housingCap = some cap) (hpr : 0 < pr) (hhou : 0 < hou) :
    pickNextAction (some v) miss (some pr) (some hou) =
      { type := "lower_price"
        target := .priceTarget (round pr) (max 0 (round (roundTo (pr * ((cap : ℚ) / hou)) 1000)))
          (round ((cap : ℚ)))
        why := "Brings estimated all-in housing closer to the 30% cap using your current scenario." } :=
  pickNextAction_nogo_eval v miss pr hou cap hst hcap hpr hhou

/-- C5 witness: the spec's concrete scenario — income 6000, expenses 1500,
allInMonthly 3202, price 400000 — yields verdict NO-GO with grade D and a
`lower_price` action with target price 225000. -/
theorem claim5_nogo_lower_price_witness :
    (computeVerdict (some 6000) (some 1500) (some 3202)).status = "NO-GO" ∧
    (computeVerdict (some 6000) (some 1500) (some 3202)).grade = "D" ∧
    pickNextAction (some (computeVerdict (some 6000) (some 1500) (some 3202))) []
      (some 400000) (some 3202) =
      { type := "lower_price"
        target := .priceTarget 400000 225000 1800
        why := "Brings estimated all-in housing closer to the 30% cap using your current scenario." } := by
  have hr1 : round ((1800:ℚ)) = 1800 := by norm_num
  have hr2 : round ((1298:ℚ)) = 1298 := by norm_num
  have hv : computeVerdict (some 6000) (some 1500) (some 3202) =
      { status := "NO-GO", grade := "D", housingCap := some 1800
        ratios := { housingRatio := some (3202 / 6000), expenseRatio := some (1500 / 6000) }
        residual := some 1298
        notes := ["Housing cost exceeds the 30% housing cap."] } := by
    norm_num [computeVerdict, hr1, hr2]
  have hround : roundTo ((400000:ℚ) * ((1800:ℚ) / 3202)) 1000 = 225000 := by
    rw [roundTo]
    rw [show (400000:ℚ) * ((1800:ℚ) / 3202) / 1000 = (360000/1601 : ℚ) from by norm_num]
    rw [show round ((360000/1601 : ℚ)) = 225 from round_val (by norm_num) (by norm_num)]
    norm_num
  refine ⟨by rw [hv], by rw [hv], ?_⟩
  rw [hv, claim5_nogo_lower_price _ [] 400000 3202 1800 rfl rfl (by norm_num) (by norm_num)]
  rw [show (((1800 : ℤ)) : ℚ) = 1800 from by norm_num]
  rw [hround]
  rw [show round ((225000:ℚ)) = 225000 from by norm_num]
  rw [hr1]
  norm_num

/-! ## Claim C6 -/

/-- C6 counterexample: the 7.00% default is NOT returned only when the score is
missing — a present score of 0 is falsy in JS (`if (!s)`), so
`aprTierFromScore(0)` also returns 7.00% even though 0 is not a missing score
(the tier table would give 9.00% for any other score below 660). -/
theorem claim6_counterexample :
    aprTierFromScore (some 0) = 0.070 ∧ (some (0:ℚ)) ≠ (none : Option ℚ) ∧
    aprTierFromScore (some 1) = 0.0900 := by
  refine ⟨by norm_num [aprTierFromScore], by simp, by norm_num [aprTierFromScore]⟩

/-- C6 (amended): on the claimed domain [300,850] the tier function is
monotonically non-increasing and realised by the stated step table
(≥780→6.25%, ≥740→6.75%, ≥700→7.25%, ≥660→8.00%, else 9.00%); the 7.00%
default is returned exactly when the score is missing or zero (not only when
missing, see the counterexample). -/
theorem claim6_aprTier_monotone_table :
    (∀ s1 s2 : ℚ, 300 ≤ s1 → s1 ≤ s2 → s2 ≤ 850 →
        aprTierFromScore (some s2) ≤ aprTierFromScore (some s1)) ∧
    (∀ s : Option ℚ, aprTierFromScore s = 0.070 ↔ (s = none ∨ s = some 0)) ∧
    (∀ s : ℚ, 780 ≤ s → aprTierFromScore (some s) = 0.0625) ∧
    (∀ s : ℚ, 740 ≤ s → s < 780 → aprTierFromScore (some s) = 0.0675) ∧
    (∀ s : ℚ, 700 ≤ s → s < 740 → aprTierFromScore (some s) = 0.0725) ∧
    (∀ s : ℚ, 660 ≤ s → s < 700 → aprTierFromScore (some s) = 0.0800) ∧
    (∀ s : ℚ, s ≠ 0 → s < 660 → aprTierFromScore (some s) = 0.0900) := by
  refine ⟨?_, ?_, ?_, ?_, ?_, ?_, ?_⟩
  · intro s1 s2 h300 h12 h850
    simp only [aprTierFromScore]
    split_ifs <;> (try norm_num) <;> linarith
  · intro s
    rcases s with _ | x
    · simp [aprTierFromScore]
    · simp only [aprTierFromScore]
      split_ifs with h1 h2 h3 h4 h5 <;> (try simp_all) <;> (try norm_num)
  · intro s h
    simp only [aprTierFromScore]
    rw [if_neg (by linarith), if_pos h]
  · intro s h1 h2
    simp only [aprTierFromScore]
    rw [if_neg (by linarith), if_neg (by linarith), if_pos h1]
  · intro s h1 h2
    simp only [aprTierFromScore]
    rw [if_neg (by linarith), if_neg (by linarith), if_neg (by linarith), if_pos h1]
  · intro s h1 h2
    simp only [aprTierFromScore]
    rw [if_neg (by linarith), if_neg (by linarith), if_neg (by linarith), if_neg (by linarith),
      if_pos h1]
  · intro s h0 h1
    simp only [aprTierFromScore]
    rw [if_neg h0, if_neg (by linarith), if_neg (by linarith), if_neg (by linarith),
      if_neg (by linarith)]

/-- C6 witness: monotonicity and the top tier instantiated at scores 700 and
780. -/
theorem claim6_aprTier_monotone_table_witness :
    ((300:ℚ) ≤ 700) ∧ ((700:ℚ) ≤ 780) ∧ ((780:ℚ) ≤ 850) ∧
    aprTierFromScore (some 780) ≤ aprTierFromScore (some 700) ∧
    aprTierFromScore (some 780) = 0.0625 :=
  ⟨by norm_num, by norm_num, by norm_num,
    claim6_aprTier_monotone_table.1 700 780 (by norm_num) (by norm_num) (by norm_num),
    claim6_aprTier_monotone_table.2.2.1 780 (by norm_num)⟩

/-! ## Claim C7 -/

/-- C7 counterexample: a quick-rails result computed from the positive
principal 15/16 (income 1/3, zero APR, one-year term) reports
`price_0_down = 1 = price_5_down` — rounding collapses the strict inequality
for small principals. -/
theorem claim7_counterexample :
    buildQuickAffordability (some (1/3)) 0.30 1.28 (some 0) 1 =
      some { housing_cap_monthly := 0, pi_target_monthly := 0
             assumptions :=
               { housing_cap_pct := 0.30, buffer := 1.28, apr_assumed := some 0, term_years := 1 }
             quick_max_price := { price_0_down := some 1, price_5_down := some 1 } } ∧
    principalFromPmt (some ((1/3 : ℚ) * 0.30 / 1.28)) (some 0) (some 1) = some (15/16) ∧
    (0:ℚ) < 15/16 ∧ ¬ ((1:ℤ) < 1) := by
  have hpr : principalFromPmt (some ((1/3 : ℚ) * 0.30 / 1.28)) (some 0) (some 1)
      = some (15/16) := by
    rw [principalFromPmt_eval_zero_rate _ _ _ (by norm_num) (by norm_num) (by norm_num)]
    rw [show round (((some (1:ℚ)).getD 30) * 12) = 12 from by norm_num]
    norm_num
  refine ⟨?_, hpr, by norm_num, by norm_num⟩
  simp only [buildQuickAffordability, if_neg (by norm_num : ¬ (1/3 : ℚ) = 0), hpr]
  norm_num [jsTruthyNum, jsRoundIfTruthy]
  exact ⟨round_val (by norm_num) (by norm_num), round_val (by norm_num) (by norm_num)⟩

/-- C7 (amended): for every quick-rails result, whenever both quick max prices
are present, `price_5_down ≥ price_0_down` — dividing the positive principal by
0.95 increases the unrounded price, and rounding preserves `≤` (the strict
inequality claimed by the spec can collapse to equality after rounding, see the
counterexample). -/
theorem claim7_price5_ge_price0 (inc pct buffer termY : ℚ) (apr : Option ℚ)
    (q : QuickRails) (a b : ℤ)
    (hq : buildQuickAffordability (some inc) pct buffer apr termY = some q)
    (ha : q.quick_max_price.price_0_down = some a)
    (hb : q.quick_max_price.price_5_down = some b) : a ≤ b := by
  by_cases hinc : inc = 0
  · rw [hinc] at hq
    simp [buildQuickAffordability] at hq
  simp only [buildQuickAffordability, if_neg hinc] at hq
  rcases hp : principalFromPmt (some (inc * pct / buffer)) apr (some termY) with _ | p
  · rw [hp] at hq
    rw [Option.some_inj] at hq
    subst hq
    simp [jsTruthyNum, jsRoundIfTruthy] at ha
  · have hppos := principalFromPmt_pos _ _ _ _ hp
    rw [hp] at hq
    rw [Option.some_inj] at hq
    subst hq
    have hp95 : p / (0.95 : ℚ) ≠ 0 := by
      have h950 : (0:ℚ) < p / 0.95 := by positivity
      exact ne_of_gt h950
    simp [jsRoundIfTruthy, jsTruthyNum, ne_of_gt hppos, hp95] at ha hb
    subst ha
    subst hb
    apply round_le_round
    rw [show (0.95 : ℚ) = 19/20 from by norm_num]
    rw [div_eq_mul_inv, show ((19:ℚ)/20)⁻¹ = 20/19 from by norm_num]
    nlinarith

/-- C7 witness: income 6000 (principal 16875 at zero APR over one year) gives
`price_0_down = 16875 ≤ 17763 = price_5_down`. -/
theorem claim7_price5_ge_price0_witness :
    buildQuickAffordability (some 6000) 0.30 1.28 (some 0) 1 =
      some { housing_cap_monthly := 1800, pi_target_monthly := 1406
             assumptions :=
               { housing_cap_pct := 0.30, buffer := 1.28, apr_assumed := some 0, term_years := 1 }
             quick_max_price := { price_0_down := some 16875, price_5_down := some 17763 } } ∧
    ((16875:ℤ) ≤ 17763) := by
  have hpr : principalFromPmt (some ((6000 : ℚ) * 0.30 / 1.28)) (some 0) (some 1) =
      some (16875) := by
    rw [principalFromPmt_eval_zero_rate _ _ _ (by norm_num) (by norm_num) (by norm_num)]
    rw [show round (((some (1:ℚ)).getD 30) * 12) = 12 from by norm_num]
    norm_num
  have hq : buildQuickAffordability (some 6000) 0.30 1.28 (some 0) 1 =
      some { housing_cap_monthly := 1800, pi_target_monthly := 1406
             assumptions :=
               { housing_cap_pct := 0.30, buffer := 1.28, apr_assumed := some 0, term_years := 1 }
             quick_max_price := { price_0_down := some 16875, price_5_down := some 17763 } } := by
    simp only [buildQuickAffordability, if_neg (by norm_num : ¬ (6000 : ℚ) = 0), hpr]
    norm_num [jsTruthyNum, jsRoundIfTruthy]
    exact ⟨round_val (by norm_num) (by norm_num), round_val (by norm_num) (by norm_num)⟩
  exact ⟨hq, claim7_price5_ge_price0 6000 0.30 1.28 1 (some 0) _ 16875 17763 hq rfl rfl⟩

/-! ## Claim C8 -/

/-- C8: on the maximally incomplete request (no financial inputs at all) the
core still produces a well-formed result: verdict INSUFFICIENT with grade N/A,
`missing_inputs` listing every absent required field, a
`collect_missing_inputs` next action targeting that list, and no mortgage or
quick payload — the core functions are total, so no exception can be raised
for missing business data. -/
theorem claim8_incomplete_wellformed :
    (runCore emptyInput).verdict.status = "INSUFFICIENT" ∧
    (runCore emptyInput).verdict.grade = "N/A" ∧
    (runCore emptyInput).missing_inputs =
      ["income", "expenses", "price", "downpayment", "creditScore"] ∧
    (runCore emptyInput).next_action =
      { type := "collect_missing_inputs"
        target := .missingList ["income", "expenses", "price", "downpayment", "creditScore"]
        why := "I can give quick rails now, and a tighter verdict once those inputs are provided." } ∧
    (runCore emptyInput).mortgage = none ∧
    (runCore emptyInput).quick = none :=
  ⟨rfl, rfl, rfl, rfl, rfl, rfl⟩

/-! ## Claim C9 -/

/-- C9: the core affordability computation is deterministic — two evaluations
of `runCore` (and of each of `estimateAllInHousing`, `buildQuickAffordability`,
`computeVerdict`, `pickNextAction` as composed by the handler) on identical
inputs produce identical outputs in every field; the embedded math has no
clock or randomness dependence. -/
theorem claim9_core_deterministic (i1 i2 : CoreInput) (h : i1 = i2) :
    runCore i1 = runCore i2 ∧
    estimateAllInHousing i1.price i1.downpayment i1.creditScore (some i1.termYears)
        i1.taxRate i1.insuranceAnnual i1.hoaMonthly =
      estimateAllInHousing i2.price i2.downpayment i2.creditScore (some i2.termYears)
        i2.taxRate i2.insuranceAnnual i2.hoaMonthly ∧
    buildQuickAffordability i1.income 0.30 1.28 (some (aprTierFromScore i1.creditScore))
        i1.termYears =
      buildQuickAffordability i2.income 0.30 1.28 (some (aprTierFromScore i2.creditScore))
        i2.termYears ∧
    computeVerdict i1.income i1.expenses (runCore i1).housingAllIn =
      computeVerdict i2.income i2.expenses (runCore i2).housingAllIn ∧
    pickNextAction (some (runCore i1).verdict) (runCore i1).missing_inputs i1.price
        (runCore i1).housingAllIn =
      pickNextAction (some (runCore i2).verdict) (runCore i2).missing_inputs i2.price
        (runCore i2).housingAllIn := by
  subst h
  exact ⟨rfl, rfl, rfl, rfl, rfl⟩

/-- C9 witness: determinism instantiated at the representative populated
scenario input. -/
theorem claim9_core_deterministic_witness :
    runCore sampleInput = runCore sampleInput ∧
    estimateAllInHousing sampleInput.price sampleInput.downpayment sampleInput.creditScore
        (some sampleInput.termYears) sampleInput.taxRate sampleInput.insuranceAnnual
        sampleInput.hoaMonthly =
      estimateAllInHousing sampleInput.price sampleInput.downpayment sampleInput.creditScore
        (some sampleInput.termYears) sampleInput.taxRate sampleInput.insuranceAnnual
        sampleInput.hoaMonthly ∧
    buildQuickAffordability sampleInput.income 0.30 1.28
        (some (aprTierFromScore sampleInput.creditScore)) sampleInput.termYears =
      buildQuickAffordability sampleInput.income 0.30 1.28
        (some (aprTierFromScore sampleInput.creditScore)) sampleInput.termYears ∧
    computeVerdict sampleInput.income sampleInput.expenses (runCore sampleInput).housingAllIn =
      computeVerdict sampleInput.income sampleInput.expenses (runCore sampleInput).housingAllIn ∧
    pickNextAction (some (runCore sampleInput).verdict) (runCore sampleInput).missing_inputs
        sampleInput.price (runCore sampleInput).housingAllIn =
      pickNextAction (some (runCore sampleInput).verdict) (runCore sampleInput).missing_inputs
        sampleInput.price (runCore sampleInput).housingAllIn :=
  claim9_core_deterministic sampleInput sampleInput rfl

/-! ## Claim C10 -/

/-- C10: the two engine versions in the repository implement extensionally
equal core functions — for every input, `aprTierFromScore`, `pmtMonthlyPI`,
`principalFromPmt`, `estimateAllInHousing`, `buildQuickAffordability`,
`computeVerdict` and `pickNextAction` of elena-agent.js v2.2.0 agree with the
functions of the same name in the older v2.0.0 handler (part_003). -/
theorem claim10_versions_extensionally_equal :
    (∀ s, aprTierFromScore s = V200.aprTierFromScore s) ∧
    (∀ p a t, pmtMonthlyPI p a t = V200.pmtMonthlyPI p a t) ∧
    (∀ t a y, principalFromPmt t a y = V200.principalFromPmt t a y) ∧
    (∀ p d c ty tr ia hm, estimateAllInHousing p d c ty tr ia hm =
      V200.estimateAllInHousing p d c ty tr ia hm) ∧
    (∀ i pct buf a ty, buildQuickAffordability i pct buf a ty =
      V200.buildQuickAffordability i pct buf a ty) ∧
    (∀ i e h, computeVerdict i e h = V200.computeVerdict i e h) ∧
    (∀ v m p h, pickNextAction v m p h = V200.pickNextAction v m p h) :=
  ⟨fun _ => rfl, fun _ _ _ => rfl, fun _ _ _ => rfl, fun _ _ _ _ _ _ _ => rfl,
    fun _ _ _ _ _ => rfl, fun _ _ _ => rfl, fun _ _ _ _ => rfl⟩

end ElenaAgent
